import Mathlib

/-!
Shallow embedding of the product CRUD service: an HTTP controller
(`handlers` package, `ControllerProduct`) over a MySQL-backed storage engine
(`storage` package, `ImplStorageProductMySQL`).  The backing store is modelled
as an explicit state (`DbState`): a list of rows, the auto-increment counter,
and a record of injectable backing-store faults covering every failure path the
source code branches on (prepare failure, execution failure with a MySQL error
number, RowsAffected/LastInsertId failures).  Handlers are pure functions from
a database state and an HTTP request to a response, the new database state and
the list of storage calls they performed.
-/

set_option autoImplicit false

deriving instance DecidableEq for Except

/-- `storage.Product` (storage/clase-01-base/internal/products/storage/
storage.go): `ID int`, `Name string`, `Type string`, `Count int`,
`Price float64`.  Go's `Type` field is written `Typ` (`Type` is not a usable
field name in Lean); `Price` is Go `float64` modelled as `Rat` (the code only
compares it with 0 and moves it around). -/
structure Product where
  ID : Int
  Name : String
  Typ : String
  Count : Int
  Price : Rat
deriving DecidableEq, Repr

/-- The three error sentinels `ErrStorageProductNotFound`,
`ErrStorageProductNotUnique`, `ErrStorageProductInternal` declared as
`errors.New` values in storage/clase-01-base/internal/products/storage/
storage.go.  The source discriminates them with `errors.Is`, and the
`fmt.Errorf("%w. ...")` wrapping preserves exactly this identity, so an error
value is modelled by which sentinel it wraps. -/
inductive StorageErr where
  | notFound
  | notUnique
  | internal
deriving DecidableEq, Repr

/-- An error returned by `database/sql`'s `Stmt.Exec`: either a
`*mysql.MySQLError` carrying a numeric code (1062 = duplicate key), or any
other driver/connectivity error. -/
inductive ExecErr where
  | mysqlError (number : Nat)
  | driverError
deriving DecidableEq, Repr

/-- Injectable backing-store faults, one per failure point the source code
branches on.  `queryRowErr` is a query-execution/connectivity error surfaced by
`sql.Row.Err()`; `database/sql` produces `sql.ErrNoRows` exclusively from
`Row.Scan` (never from `Row.Err`), so this fault carries no "no rows" case. -/
structure DbFaults where
  prepareFail : Bool := false
  queryRowErr : Bool := false
  scanFail : Bool := false
  execErr : Option ExecErr := none
  rowsAffectedFail : Bool := false
  rowsAffectedOverride : Option Int := none
  lastInsertIdFail : Bool := false
deriving DecidableEq, Repr

/-- The fault-free backing store: every statement prepares, executes, reports
its row count and its last-insert id normally. -/
def noFaults : DbFaults := {}

/-- One row of the `products` table.  The four data columns are nullable
(`sql.NullString` / `sql.NullInt32` / `sql.NullFloat64` are modelled as
`Option`: `none` is `Valid = false`, i.e. SQL `NULL`). -/
structure DbRow where
  id : Int
  name : Option String
  typ : Option String
  count : Option Int
  price : Option Rat
deriving DecidableEq, Repr

/-- State of the backing relational store handed to `ImplStorageProductMySQL`:
the `products` table, the next auto-increment identifier, and the injected
faults. -/
structure DbState where
  table : List DbRow
  nextId : Int
  faults : DbFaults
deriving DecidableEq, Repr

/-- The four nullable data columns of a `ProductMySQL` value (its `ID` column
is scanned by `GetOne` but never used, so it is not carried here). -/
structure ProductMySQLFields where
  name : Option String
  typ : Option String
  count : Option Int
  price : Option Rat
deriving DecidableEq, Repr

/-- Go's conversion `int32(n)`: two's-complement truncation to 32 bits. -/
def toInt32 (n : Int) : Int := (n + 2 ^ 31) % 2 ^ 32 - 2 ^ 31

/-- The `deserialize` block that opens both `Store` and `Update` (the source
repeats it verbatim in the two functions): starting from a zero
`ProductMySQL`, each column becomes valid (non-NULL) exactly when the
corresponding product field differs from its type's zero value; `Count` goes
through Go's `int32(...)` conversion. -/
def encodeMySQL (p : Product) : ProductMySQLFields :=
  { name := if p.Name ≠ "" then some p.Name else none
    typ := if p.Typ ≠ "" then some p.Typ else none
    count := if p.Count ≠ 0 then some (toInt32 p.Count) else none
    price := if p.Price ≠ 0 then some p.Price else none }

/-- `SELECT ... WHERE id = ?`: the row matching the identifier, if any. -/
def findRow (table : List DbRow) (id : Int) : Option DbRow :=
  table.find? (fun r => r.id == id)

/-- The `serialization` tail of `GetOne`: `p = new(Product)` (all fields zero)
followed by one `if column.Valid` assignment per data column.  The scanned `id`
column is never copied into the result, so the returned product's `ID` stays
`0`. -/
def decodeRow (r : DbRow) : Product :=
  { ID := 0
    Name := match r.name with | some s => s | none => ""
    Typ := match r.typ with | some s => s | none => ""
    Count := match r.count with | some n => n | none => 0
    Price := match r.price with | some q => q | none => 0 }

/-- `ImplStorageProductMySQL.GetOne`.  Control flow of the source: prepare
(failure wrapped as Internal); `row.Err()` checked with
`errors.Is(err, sql.ErrNoRows)` — but `Row.Err` only surfaces
query-execution/connectivity errors and `database/sql` produces
`sql.ErrNoRows` solely from `Row.Scan`, so that test is never true and the
branch wrapping `ErrStorageProductNotFound` is unreachable: a connectivity
error falls to the `default` arm and is wrapped as Internal; then `row.Scan`,
whose error (including `sql.ErrNoRows` when no row matches, and any decode
failure) is wrapped as Internal; finally the null-aware serialization. -/
def mysqlGetOne (db : DbState) (id : Int) : Except StorageErr Product :=
  if db.faults.prepareFail then .error .internal
  else if db.faults.queryRowErr then .error .internal
  else
    match findRow db.table id with
    | none => .error .internal
    | some r => if db.faults.scanFail then .error .internal else .ok (decodeRow r)

/-- Result of `ImplStorageProductMySQL.Store`: the returned error (if any),
the value of the passed `*Product` after the call (Go passes a pointer and the
function ends with `(*p).ID = int(lastInsertID)`), and the new store state. -/
structure MysqlStoreResult where
  err : Option StorageErr
  p : Product
  db : DbState
deriving DecidableEq, Repr

/-- `ImplStorageProductMySQL.Store`: encode with `encodeMySQL`; prepare
(failure → Internal); `INSERT` execution — a `*mysql.MySQLError` numbered 1062
→ NotUnique, any other number or error → Internal; when execution succeeds the
row is inserted with the auto-increment identifier; `RowsAffected()` failure →
Internal; an affected-row count other than one → Internal; `LastInsertId()`
failure → Internal; on full success `(*p).ID` is set to the generated
identifier. -/
def mysqlStore (db : DbState) (p : Product) : MysqlStoreResult :=
  let product := encodeMySQL p
  if db.faults.prepareFail then ⟨some .internal, p, db⟩
  else
    match db.faults.execErr with
    | some (.mysqlError n) =>
        if n == 1062 then ⟨some .notUnique, p, db⟩ else ⟨some .internal, p, db⟩
    | some .driverError => ⟨some .internal, p, db⟩
    | none =>
      let row : DbRow :=
        { id := db.nextId, name := product.name, typ := product.typ
          count := product.count, price := product.price }
      let db' : DbState := { db with table := db.table ++ [row], nextId := db.nextId + 1 }
      if db.faults.rowsAffectedFail then ⟨some .internal, p, db'⟩
      else if db.faults.rowsAffectedOverride.getD 1 ≠ 1 then ⟨some .internal, p, db'⟩
      else if db.faults.lastInsertIdFail then ⟨some .internal, p, db'⟩
      else ⟨none, { p with ID := db.nextId }, db'⟩

/-- Result of a storage call that returns only an error: the error (if any)
and the new store state. -/
structure StorageOut where
  err : Option StorageErr
  db : DbState
deriving DecidableEq, Repr

/-- `ImplStorageProductMySQL.Update`: encode with `encodeMySQL` (the same
block as `Store`); prepare (failure → Internal); `UPDATE` execution — any
execution error is wrapped as Internal (this function, unlike `Store`, never
inspects the MySQL error number); when execution succeeds every row matching
`(*p).ID` gets the encoded column values; `RowsAffected()` failure → Internal;
an affected-row count other than one → Internal.  The affected count is one
exactly when a row matched (unless overridden by a fault). -/
def mysqlUpdate (db : DbState) (p : Product) : StorageOut :=
  let product := encodeMySQL p
  if db.faults.prepareFail then ⟨some .internal, db⟩
  else
    match db.faults.execErr with
    | some _ => ⟨some .internal, db⟩
    | none =>
      let matched := (findRow db.table p.ID).isSome
      let table' := db.table.map (fun r =>
        if r.id == p.ID then
          { r with name := product.name, typ := product.typ
                   count := product.count, price := product.price }
        else r)
      let db' : DbState := { db with table := table' }
      if db.faults.rowsAffectedFail then ⟨some .internal, db'⟩
      else if db.faults.rowsAffectedOverride.getD (if matched then 1 else 0) ≠ 1 then
        ⟨some .internal, db'⟩
      else ⟨none, db'⟩

/-- `ImplStorageProductMySQL.Delete`: prepare (failure → Internal); `DELETE`
execution — any execution error wrapped as Internal; when execution succeeds
the matching row is removed; `RowsAffected()` failure → Internal; an
affected-row count other than one → Internal (the source wraps
`ErrStorageProductInternal` with the message "rows affected != 1" — it never
produces `ErrStorageProductNotFound`). -/
def mysqlDelete (db : DbState) (id : Int) : StorageOut :=
  if db.faults.prepareFail then ⟨some .internal, db⟩
  else
    match db.faults.execErr with
    | some _ => ⟨some .internal, db⟩
    | none =>
      let matched := (findRow db.table id).isSome
      let db' : DbState := { db with table := db.table.filter (fun r => !(r.id == id)) }
      if db.faults.rowsAffectedFail then ⟨some .internal, db'⟩
      else if db.faults.rowsAffectedOverride.getD (if matched then 1 else 0) ≠ 1 then
        ⟨some .internal, db'⟩
      else ⟨none, db'⟩

/-- `strconv.Atoi`: optional leading `+`/`-`, at least one ASCII digit,
nothing else; out-of-range values (beyond 64-bit `int`) are errors.  Works on
the string's character list. -/
def atoi (s : String) : Option Int :=
  match s.data with
  | [] => none
  | c :: rest =>
    let p : Bool × List Char :=
      if c = '-' then (true, rest)
      else if c = '+' then (false, rest)
      else (false, c :: rest)
    if p.2.isEmpty then none
    else if p.2.all (fun d => d.isDigit) then
      let mag : Nat := p.2.foldl (fun a d => a * 10 + (d.toNat - 48)) 0
      let v : Int := if p.1 then -(mag : Int) else (mag : Int)
      if -(2 ^ 63) ≤ v ∧ v < 2 ^ 63 then some v else none
    else none

/-- A JSON request body as the handlers observe it through the `request.JSON`
helper (an external collaborator wrapping `encoding/json`): either not
decodable at all, or an object in which each of the four known members is
present with a value (`some`) or absent/null (`none` — `encoding/json` leaves
the target field unchanged in both cases).  Unknown members are ignored by
`encoding/json` and are not represented. -/
inductive BodyJson where
  | malformed
  | fields (name : Option String) (typ : Option String)
      (count : Option Int) (price : Option Rat)
deriving DecidableEq, Repr

/-- `RequestProductStore` (same field layout as `storage.Product` minus the
identifier). -/
structure RequestProductStore where
  Name : String
  Typ : String
  Count : Int
  Price : Rat
deriving DecidableEq, Repr

/-- `RequestProductUpdate` (same field layout as `RequestProductStore`). -/
structure RequestProductUpdate where
  Name : String
  Typ : String
  Count : Int
  Price : Rat
deriving DecidableEq, Repr

/-- `request.JSON(r, &req)` with `var req RequestProductStore` freshly
zero-valued: each member present in the body sets the field, each absent
member leaves the zero value. -/
def requestJSONStore (b : BodyJson) : Option RequestProductStore :=
  match b with
  | .malformed => none
  | .fields n t c pr =>
      some { Name := n.getD "", Typ := t.getD "", Count := c.getD 0, Price := pr.getD 0 }

/-- `request.JSON(r, product)` with `product` pre-filled from the current
record: `encoding/json` decodes *on top of* the existing values, so an absent
(or null) member keeps the pre-filled field. -/
def requestJSONUpdate (b : BodyJson) (init : RequestProductUpdate) :
    Option RequestProductUpdate :=
  match b with
  | .malformed => none
  | .fields n t c pr =>
      some { Name := n.getD init.Name, Typ := t.getD init.Typ
             Count := c.getD init.Count, Price := pr.getD init.Price }

/-- An incoming HTTP request as the handlers observe it: the result of the
`request.PathLastParam` helper (`none` models the helper failing because no
segment is available) and the body. -/
structure HttpRequest where
  lastParam : Option String
  body : BodyJson
deriving DecidableEq, Repr

/-- The JSON payload serialized under `data` by the product-shaped responses
(`ResponseProduct`, `ResponseProductStore`, `ResponseProductUpdate` all carry
exactly these four members — none of them has an identifier member). -/
structure ResponseProduct where
  name : String
  typ : String
  count : Int
  price : Rat
deriving DecidableEq, Repr

/-- The rendered response: status code plus the uniform envelope.  The four Go
envelope structs (`ResponseBody`, `ResponseBodyStore`, `ResponseBodyUpdate`,
`ResponseBodyDelete`) all consist of exactly `Message string`, a `Data`
pointer/`any` and `Error bool` with the JSON keys `message`/`data`/`error`, so
one rendered shape captures all of them; `data := none` is JSON `null`
(a nil `Data`). -/
structure HttpResponse where
  code : Nat
  message : String
  data : Option ResponseProduct
  error : Bool
deriving DecidableEq, Repr

/-- A call made against the `StorageProduct` interface, with its argument
value at call time. -/
inductive StorageCall where
  | getOne (id : Int)
  | store (p : Product)
  | update (p : Product)
  | delete (id : Int)
deriving DecidableEq, Repr

/-- What a handler produces for one request: the rendered response, the
backing store state afterwards, and the storage calls it made, in order. -/
structure HandlerResult where
  resp : HttpResponse
  db : DbState
  calls : List StorageCall
deriving DecidableEq, Repr

/-- The wire contract of the uniform envelope, as the spec states it: on a
failure status the flag is set and the payload is null; on a success status
the flag is clear. -/
def envelopeOk (h : HandlerResult) : Prop :=
  (400 ≤ h.resp.code → h.resp.error = true ∧ h.resp.data = none) ∧
  (h.resp.code < 400 → h.resp.error = false)

/-- `ControllerProduct.GetOne`: last path segment (400 "invalid path param" if
unavailable), `strconv.Atoi` (400 "parameter must be int" on error), then
`storage.GetOne`; NotFound → 404, any other storage error → 500; success →
200 with the four data fields serialized (no identifier member exists in
`ResponseProduct`). -/
def ControllerProduct.GetOne (db : DbState) (r : HttpRequest) : HandlerResult :=
  match r.lastParam with
  | none => ⟨⟨400, "invalid path param", none, true⟩, db, []⟩
  | some idParam =>
    match atoi idParam with
    | none => ⟨⟨400, "parameter must be int", none, true⟩, db, []⟩
    | some id =>
      match mysqlGetOne db id with
      | .error .notFound => ⟨⟨404, "product not found", none, true⟩, db, [.getOne id]⟩
      | .error _ => ⟨⟨500, "internal error", none, true⟩, db, [.getOne id]⟩
      | .ok product =>
          ⟨⟨200, "success",
            some ⟨product.Name, product.Typ, product.Count, product.Price⟩, false⟩,
           db, [.getOne id]⟩

/-- `ControllerProduct.Store`: decode the body into a zero-valued
`RequestProductStore` (400 "invalid json" on error), build a `storage.Product`
with zero identifier, call `storage.Store`; NotUnique → 400, any other storage
error → 500; success → 201 serializing the passed product's four data fields
(its freshly assigned `ID` has no member in `ResponseProductStore`). -/
def ControllerProduct.Store (db : DbState) (r : HttpRequest) : HandlerResult :=
  match requestJSONStore r.body with
  | none => ⟨⟨400, "invalid json", none, true⟩, db, []⟩
  | some req =>
    let product : Product := ⟨0, req.Name, req.Typ, req.Count, req.Price⟩
    let out := mysqlStore db product
    match out.err with
    | some .notUnique => ⟨⟨400, "product not unique", none, true⟩, out.db, [.store product]⟩
    | some _ => ⟨⟨500, "internal error", none, true⟩, out.db, [.store product]⟩
    | none =>
        ⟨⟨201, "success",
          some ⟨out.p.Name, out.p.Typ, out.p.Count, out.p.Price⟩, false⟩,
         out.db, [.store product]⟩

/-- `ControllerProduct.Update`: path segment and `Atoi` as in `GetOne`; fetch
the current record with `storage.GetOne` (NotFound → 404, other → 500); fill a
`RequestProductUpdate` with the current fields and decode the body on top of
it (400 "invalid json" on error); build the `storage.Product` with the path
identifier and the patched fields; `storage.Update` (NotFound → 404, NotUnique
→ 400, other → 500); success → 200 serializing the patched fields. -/
def ControllerProduct.Update (db : DbState) (r : HttpRequest) : HandlerResult :=
  match r.lastParam with
  | none => ⟨⟨400, "invalid path param", none, true⟩, db, []⟩
  | some idParam =>
    match atoi idParam with
    | none => ⟨⟨400, "parameter must be int", none, true⟩, db, []⟩
    | some id =>
      match mysqlGetOne db id with
      | .error .notFound => ⟨⟨404, "product not found", none, true⟩, db, [.getOne id]⟩
      | .error _ => ⟨⟨500, "internal error", none, true⟩, db, [.getOne id]⟩
      | .ok pr =>
        let product : RequestProductUpdate := ⟨pr.Name, pr.Typ, pr.Count, pr.Price⟩
        match requestJSONUpdate r.body product with
        | none => ⟨⟨400, "invalid json", none, true⟩, db, [.getOne id]⟩
        | some patched =>
          let prUpdate : Product :=
            ⟨id, patched.Name, patched.Typ, patched.Count, patched.Price⟩
          let out := mysqlUpdate db prUpdate
          match out.err with
          | some .notFound =>
              ⟨⟨404, "product not found", none, true⟩, out.db, [.getOne id, .update prUpdate]⟩
          | some .notUnique =>
              ⟨⟨400, "product not unique", none, true⟩, out.db, [.getOne id, .update prUpdate]⟩
          | some _ =>
              ⟨⟨500, "internal error", none, true⟩, out.db, [.getOne id, .update prUpdate]⟩
          | none =>
              ⟨⟨200, "success",
                some ⟨prUpdate.Name, prUpdate.Typ, prUpdate.Count, prUpdate.Price⟩, false⟩,
               out.db, [.getOne id, .update prUpdate]⟩

/-- `ControllerProduct.Delete`: path segment and `Atoi` as in `GetOne`; call
`storage.Delete`; NotFound → 404, any other storage error → 500; success →
200 with a nil `data` payload (`ResponseBodyDelete{Data: nil}`). -/
def ControllerProduct.Delete (db : DbState) (r : HttpRequest) : HandlerResult :=
  match r.lastParam with
  | none => ⟨⟨400, "invalid path param", none, true⟩, db, []⟩
  | some idParam =>
    match atoi idParam with
    | none => ⟨⟨400, "parameter must be int", none, true⟩, db, []⟩
    | some id =>
      let out := mysqlDelete db id
      match out.err with
      | some .notFound => ⟨⟨404, "product not found", none, true⟩, out.db, [.delete id]⟩
      | some _ => ⟨⟨500, "internal error", none, true⟩, out.db, [.delete id]⟩
      | none => ⟨⟨200, "success", none, false⟩, out.db, [.delete id]⟩

/-! ### Helper lemmas -/

/-- Go's `int32` conversion is the identity on values in int32 range. -/
theorem toInt32_eq_of_range (n : Int) (h1 : -(2 ^ 31) ≤ n) (h2 : n < 2 ^ 31) :
    toInt32 n = n := by
  unfold toInt32
  omega

/-- The pointee after `Store`: the same product with the generated identifier
on full success, the untouched product on every error return. -/
theorem mysqlStore_p_spec (db : DbState) (p : Product) :
    (mysqlStore db p).p =
      if (mysqlStore db p).err = none then { p with ID := db.nextId } else p := by
  simp only [mysqlStore]
  split
  · simp
  · split
    · split <;> simp
    · simp
    · split
      · simp
      · split
        · simp
        · split <;> simp

/-- On a fault-free store, `Store` succeeds: it appends the encoded row under
the auto-increment identifier, bumps the counter, and assigns the identifier
to the passed product. -/
theorem mysqlStore_noFaults (db : DbState) (p : Product) (hf : db.faults = noFaults) :
    mysqlStore db p =
      ⟨none, { p with ID := db.nextId },
       { db with
          table := db.table ++
            [⟨db.nextId, (encodeMySQL p).name, (encodeMySQL p).typ,
              (encodeMySQL p).count, (encodeMySQL p).price⟩]
          nextId := db.nextId + 1 }⟩ := by
  simp [mysqlStore, hf, noFaults]

/-- On a fault-free store, `GetOne` of an identifier matching no row yields
the Internal error (`sql.ErrNoRows` surfaces from `Row.Scan` and is wrapped
by the generic scan-error branch). -/
theorem mysqlGetOne_missing (db : DbState) (id : Int) (hf : db.faults = noFaults)
    (hm : findRow db.table id = none) : mysqlGetOne db id = .error .internal := by
  simp [mysqlGetOne, hf, noFaults, hm]

/-- On a fault-free store, `Delete` of an identifier matching no row removes
nothing and reports the Internal error (affected-row count 0). -/
theorem mysqlDelete_missing (db : DbState) (id : Int) (hf : db.faults = noFaults)
    (hm : findRow db.table id = none) :
    mysqlDelete db id =
      ⟨some .internal, { db with table := db.table.filter (fun r => !(r.id == id)) }⟩ := by
  simp [mysqlDelete, hf, noFaults, hm]

/-- On a fault-free store, `Update` writes the encoded columns over every row
matching the product's identifier (whatever error it then reports). -/
theorem mysqlUpdate_table_noFaults (db : DbState) (p : Product) (hf : db.faults = noFaults) :
    ((mysqlUpdate db p).db).table =
      db.table.map (fun r =>
        if r.id == p.ID then
          { r with name := (encodeMySQL p).name, typ := (encodeMySQL p).typ
                   count := (encodeMySQL p).count, price := (encodeMySQL p).price }
        else r) := by
  simp [mysqlUpdate, hf, noFaults]
  split <;> rfl

/-- Appending a row whose identifier is fresh for the table and then looking
that identifier up finds exactly the appended row. -/
theorem findRow_append_fresh (table : List DbRow) (row : DbRow)
    (h : ∀ r ∈ table, r.id ≠ row.id) :
    findRow (table ++ [row]) row.id = some row := by
  induction table with
  | nil => simp [findRow, List.find?]
  | cons a t ih =>
    have ha : (a.id == row.id) = false := by
      simpa using h a (List.mem_cons_self a t)
    have ht : ∀ r ∈ t, r.id ≠ row.id := fun r hr => h r (List.mem_cons_of_mem a hr)
    simpa [findRow, List.find?, ha] using ih ht

/-! ### Claims -/

/-- C1 (counterexample): the claim says the 201 payload includes the
identifier assigned by the storage engine.  Two stores of the same request
against stores whose auto-increment counters differ (5 and 9) assign different
identifiers — visible in the inserted rows — yet produce byte-identical 201
response bodies, so the payload cannot include the assigned identifier
(`ResponseProductStore` has no identifier member). -/
theorem C1_store_counterexample :
    (ControllerProduct.Store ⟨[], 5, noFaults⟩
        ⟨none, .fields (some "widget") (some "hardware") (some 10) (some 3)⟩).resp.code = 201 ∧
    (ControllerProduct.Store ⟨[], 9, noFaults⟩
        ⟨none, .fields (some "widget") (some "hardware") (some 10) (some 3)⟩).resp.code = 201 ∧
    (ControllerProduct.Store ⟨[], 5, noFaults⟩
        ⟨none, .fields (some "widget") (some "hardware") (some 10) (some 3)⟩).db.table =
      [⟨5, some "widget", some "hardware", some 10, some 3⟩] ∧
    (ControllerProduct.Store ⟨[], 9, noFaults⟩
        ⟨none, .fields (some "widget") (some "hardware") (some 10) (some 3)⟩).db.table =
      [⟨9, some "widget", some "hardware", some 10, some 3⟩] ∧
    (ControllerProduct.Store ⟨[], 5, noFaults⟩
        ⟨none, .fields (some "widget") (some "hardware") (some 10) (some 3)⟩).resp =
      (ControllerProduct.Store ⟨[], 9, noFaults⟩
        ⟨none, .fields (some "widget") (some "hardware") (some 10) (some 3)⟩).resp := by
  decide

/-- C1 (amended): every successful Store request returns 201 whose data
payload is the created product's name, type, count and price — and nothing
else: the assigned identifier has no member in the response shape. -/
theorem C1_store_created_payload (db : DbState) (r : HttpRequest)
    (h : (ControllerProduct.Store db r).resp.code = 201) :
    ∃ req, requestJSONStore r.body = some req ∧
      (ControllerProduct.Store db r).resp =
        ⟨201, "success", some ⟨req.Name, req.Typ, req.Count, req.Price⟩, false⟩ := by
  rcases hb : requestJSONStore r.body with _ | req
  · simp [ControllerProduct.Store, hb] at h
  · refine ⟨req, rfl, ?_⟩
    have hp := mysqlStore_p_spec db ⟨0, req.Name, req.Typ, req.Count, req.Price⟩
    rcases he : (mysqlStore db ⟨0, req.Name, req.Typ, req.Count, req.Price⟩).err with _ | e
    · rw [he] at hp
      simp only [reduceIte] at hp
      simp [ControllerProduct.Store, hb, he, hp]
    · cases e <;> simp [ControllerProduct.Store, hb, he] at h

/-- C1 (witness). -/
theorem C1_store_created_payload_witness :
    (ControllerProduct.Store ⟨[], 1, noFaults⟩
        ⟨none, .fields (some "w") (some "h") (some 2) (some 3)⟩).resp.code = 201 ∧
    ∃ req, requestJSONStore (HttpRequest.body ⟨none, .fields (some "w") (some "h") (some 2) (some 3)⟩) = some req ∧
      (ControllerProduct.Store ⟨[], 1, noFaults⟩
          ⟨none, .fields (some "w") (some "h") (some 2) (some 3)⟩).resp =
        ⟨201, "success", some ⟨req.Name, req.Typ, req.Count, req.Price⟩, false⟩ :=
  ⟨by decide,
   C1_store_created_payload ⟨[], 1, noFaults⟩
     ⟨none, .fields (some "w") (some "h") (some 2) (some 3)⟩ (by decide)⟩

/-- C2 (counterexample): deleting identifier 7 from a fault-free store with no
matching row makes the storage engine report the Internal error (not NotFound:
the affected-row count check wraps `ErrStorageProductInternal`), and the
endpoint answers 500, not 404. -/
theorem C2_delete_counterexample :
    (mysqlDelete ⟨[], 1, noFaults⟩ 7).err = some .internal ∧
    (ControllerProduct.Delete ⟨[], 1, noFaults⟩ ⟨some "7", .fields none none none none⟩).resp =
      ⟨500, "internal error", none, true⟩ := by
  decide

/-- C2 (amended): for every identifier with no matching row on a fault-free
store, the storage engine's Delete fails with the Internal error (affected-row
count not exactly one maps to Internal), and consequently the Delete endpoint
returns HTTP 500 for every non-existent identifier. -/
theorem C2_delete_missing_internal (db : DbState) (s : String) (id : Int) (b : BodyJson)
    (hf : db.faults = noFaults) (hm : findRow db.table id = none) (hs : atoi s = some id) :
    (mysqlDelete db id).err = some .internal ∧
    (ControllerProduct.Delete db ⟨some s, b⟩).resp = ⟨500, "internal error", none, true⟩ := by
  have hd := mysqlDelete_missing db id hf hm
  constructor
  · rw [hd]
  · simp [ControllerProduct.Delete, hs, hd]

/-- C2 (witness). -/
theorem C2_delete_missing_internal_witness :
    (⟨[], 1, noFaults⟩ : DbState).faults = noFaults ∧
    findRow (⟨[], 1, noFaults⟩ : DbState).table 7 = none ∧
    atoi "7" = some 7 ∧
    ((mysqlDelete ⟨[], 1, noFaults⟩ 7).err = some .internal ∧
      (ControllerProduct.Delete ⟨[], 1, noFaults⟩
          ⟨some "7", .fields none none none none⟩).resp = ⟨500, "internal error", none, true⟩) :=
  ⟨rfl, by decide, by decide,
   C2_delete_missing_internal ⟨[], 1, noFaults⟩ "7" 7 (.fields none none none none)
     rfl (by decide) (by decide)⟩

/-- C3: the claim matches the source's intent (the `GetOne` switch carries an
`errors.Is(err, sql.ErrNoRows) → NotFound` arm) but not its behaviour: the arm
inspects `Row.Err()`, which never yields `sql.ErrNoRows` — that error comes
from `Row.Scan` and lands in the branch wrapping
`ErrStorageProductInternal`.  Concretely, looking up identifier 7 on a
fault-free store with no matching row yields Internal; and no run of `GetOne`
whatsoever yields NotFound: every outcome is Internal or a product. -/
theorem C3_getone_missing_is_internal :
    mysqlGetOne ⟨[], 1, noFaults⟩ 7 = .error .internal ∧
    ∀ (db : DbState) (id : Int),
      mysqlGetOne db id = .error .internal ∨ ∃ q, mysqlGetOne db id = .ok q := by
  refine ⟨by decide, ?_⟩
  intro db id
  simp only [mysqlGetOne]
  split
  · exact .inl rfl
  · split
    · exact .inl rfl
    · split
      · exact .inl rfl
      · split
        · exact .inl rfl
        · exact .inr ⟨_, rfl⟩

/-- C4 (counterexample): storing a product whose count is 2^31 = 2147483648
succeeds, but fetching it back by the assigned identifier yields count
-2147483648: Go's `int32(...)` conversion in the `deserialize` block wraps the
value before it reaches the count column. -/
theorem C4_roundtrip_counterexample :
    (mysqlStore ⟨[], 1, noFaults⟩ ⟨0, "a", "b", 2147483648, 1⟩).err = none ∧
    mysqlGetOne (mysqlStore ⟨[], 1, noFaults⟩ ⟨0, "a", "b", 2147483648, 1⟩).db
        (mysqlStore ⟨[], 1, noFaults⟩ ⟨0, "a", "b", 2147483648, 1⟩).p.ID =
      .ok ⟨0, "a", "b", -2147483648, 1⟩ := by
  decide

/-- C4 (amended): for every product whose count is within int32 range,
inserting it via Store into a fault-free store (whose auto-increment
identifier is fresh for the table) and fetching it via GetOne with the
identifier assigned by Store yields a product with the same name, type, count
and price as the inserted one — null columns decode back to the zero values
that were encoded as null. -/
theorem C4_store_getone_roundtrip (db : DbState) (p : Product)
    (hf : db.faults = noFaults)
    (hfresh : ∀ r ∈ db.table, r.id ≠ db.nextId)
    (hlo : -(2 ^ 31) ≤ p.Count) (hhi : p.Count < 2 ^ 31) :
    (mysqlStore db p).err = none ∧
    (mysqlStore db p).p.ID = db.nextId ∧
    mysqlGetOne (mysqlStore db p).db (mysqlStore db p).p.ID =
      .ok ⟨0, p.Name, p.Typ, p.Count, p.Price⟩ := by
  rw [mysqlStore_noFaults db p hf]
  refine ⟨rfl, rfl, ?_⟩
  have hfind := findRow_append_fresh db.table
    ⟨db.nextId, (encodeMySQL p).name, (encodeMySQL p).typ,
      (encodeMySQL p).count, (encodeMySQL p).price⟩ hfresh
  simp only [mysqlGetOne, hf, noFaults, Bool.false_eq_true, reduceIte, hfind]
  have hdec : decodeRow
      ⟨db.nextId, (encodeMySQL p).name, (encodeMySQL p).typ,
        (encodeMySQL p).count, (encodeMySQL p).price⟩ =
      ⟨0, p.Name, p.Typ, p.Count, p.Price⟩ := by
    simp only [decodeRow, encodeMySQL, Product.mk.injEq]
    refine ⟨trivial, ?_, ?_, ?_, ?_⟩ <;> (split <;> simp_all [toInt32_eq_of_range])
  rw [hdec]

/-- C4 (witness). -/
theorem C4_store_getone_roundtrip_witness :
    (⟨[], 1, noFaults⟩ : DbState).faults = noFaults ∧
    (∀ r ∈ (⟨[], 1, noFaults⟩ : DbState).table, r.id ≠ (⟨[], 1, noFaults⟩ : DbState).nextId) ∧
    -(2 ^ 31) ≤ (10 : Int) ∧ (10 : Int) < 2 ^ 31 ∧
    ((mysqlStore ⟨[], 1, noFaults⟩ ⟨0, "widget", "", 10, 0⟩).err = none ∧
      (mysqlStore ⟨[], 1, noFaults⟩ ⟨0, "widget", "", 10, 0⟩).p.ID = 1 ∧
      mysqlGetOne (mysqlStore ⟨[], 1, noFaults⟩ ⟨0, "widget", "", 10, 0⟩).db
          (mysqlStore ⟨[], 1, noFaults⟩ ⟨0, "widget", "", 10, 0⟩).p.ID =
        .ok ⟨0, "widget", "", 10, 0⟩) :=
  ⟨rfl, by decide, by decide, by decide,
   C4_store_getone_roundtrip ⟨[], 1, noFaults⟩ ⟨0, "widget", "", 10, 0⟩
     rfl (by decide) (by decide) (by decide)⟩

/-- C5: for every existing product and every well-formed update request body,
the Update endpoint patches the body's members over the current record's
fields before calling the storage Update: the storage call sequence is the
lookup followed by an Update whose argument carries the path identifier and,
for each field, the body's value when present and the current record's value
when omitted (so an empty body changes nothing, and a body with only a count
changes only the count). -/
theorem C5_update_patches_over_current (db : DbState) (s : String) (id : Int) (pr : Product)
    (n t : Option String) (c : Option Int) (q : Option Rat)
    (hs : atoi s = some id) (hget : mysqlGetOne db id = .ok pr) :
    (ControllerProduct.Update db ⟨some s, .fields n t c q⟩).calls =
      [.getOne id,
       .update ⟨id, n.getD pr.Name, t.getD pr.Typ, c.getD pr.Count, q.getD pr.Price⟩] := by
  simp only [ControllerProduct.Update, hs, hget, requestJSONUpdate]
  rcases he : (mysqlUpdate db
      ⟨id, n.getD pr.Name, t.getD pr.Typ, c.getD pr.Count, q.getD pr.Price⟩).err with _ | e
  · simp [he]
  · cases e <;> simp [he]

/-- C5 (witness): on a store holding row 1 = (n, t, 2, 3), updating with a body
carrying only count 5 calls Update with (1, n, t, 5, 3); the lookup decodes the
row first. -/
theorem C5_update_patches_over_current_witness :
    atoi "1" = some 1 ∧
    mysqlGetOne ⟨[⟨1, some "n", some "t", some 2, some 3⟩], 2, noFaults⟩ 1 =
      .ok ⟨0, "n", "t", 2, 3⟩ ∧
    (ControllerProduct.Update ⟨[⟨1, some "n", some "t", some 2, some 3⟩], 2, noFaults⟩
        ⟨some "1", .fields none none (some 5) none⟩).calls =
      [.getOne 1, .update ⟨1, "n", "t", 5, 3⟩] :=
  ⟨by decide, by decide,
   C5_update_patches_over_current ⟨[⟨1, some "n", some "t", some 2, some 3⟩], 2, noFaults⟩
     "1" 1 ⟨0, "n", "t", 2, 3⟩ none none (some 5) none (by decide) (by decide)⟩

/-- C6 (counterexample): the claim says that a non-zero field's value is
written; but storing a product whose count is 2^31 = 2147483648 writes the
count column -2147483648 — Go's `int32(...)` conversion wraps the value. -/
theorem C6_null_encoding_counterexample :
    (mysqlStore ⟨[], 1, noFaults⟩ ⟨0, "a", "b", 2147483648, 1⟩).db.table =
      [⟨1, some "a", some "b", some (-2147483648), some 1⟩] := by
  decide

/-- C6 (amended): in the storage engine's Store and Update, each of the four
fields is written as SQL null if and only if the field equals its type's zero
value; otherwise the field's value is written, the count being first put
through Go's int32 conversion (the identity on counts within int32 range). -/
theorem C6_null_iff_zero (db : DbState) (p : Product) (hf : db.faults = noFaults) :
    ∃ cols : ProductMySQLFields,
      ((cols.name = none ↔ p.Name = "") ∧ (p.Name ≠ "" → cols.name = some p.Name)) ∧
      ((cols.typ = none ↔ p.Typ = "") ∧ (p.Typ ≠ "" → cols.typ = some p.Typ)) ∧
      ((cols.count = none ↔ p.Count = 0) ∧ (p.Count ≠ 0 → cols.count = some (toInt32 p.Count))) ∧
      ((cols.price = none ↔ p.Price = 0) ∧ (p.Price ≠ 0 → cols.price = some p.Price)) ∧
      (mysqlStore db p).db.table =
        db.table ++ [⟨db.nextId, cols.name, cols.typ, cols.count, cols.price⟩] ∧
      ((mysqlUpdate db p).db).table =
        db.table.map (fun r =>
          if r.id == p.ID then
            { r with name := cols.name, typ := cols.typ
                     count := cols.count, price := cols.price }
          else r) := by
  refine ⟨encodeMySQL p, ?_, ?_, ?_, ?_, ?_, mysqlUpdate_table_noFaults db p hf⟩
  · constructor <;> simp [encodeMySQL]
  · constructor <;> simp [encodeMySQL]
  · constructor <;> simp [encodeMySQL]
  · constructor <;> simp [encodeMySQL]
  · rw [mysqlStore_noFaults db p hf]

/-- C6 (witness). -/
theorem C6_null_iff_zero_witness :
    (⟨[⟨3, none, none, none, none⟩], 4, noFaults⟩ : DbState).faults = noFaults ∧
    ∃ cols : ProductMySQLFields,
      ((cols.name = none ↔ ("" : String) = "") ∧ (("" : String) ≠ "" → cols.name = some "")) ∧
      ((cols.typ = none ↔ ("x" : String) = "") ∧ (("x" : String) ≠ "" → cols.typ = some "x")) ∧
      ((cols.count = none ↔ (7 : Int) = 0) ∧ ((7 : Int) ≠ 0 → cols.count = some (toInt32 7))) ∧
      ((cols.price = none ↔ (0 : Rat) = 0) ∧ ((0 : Rat) ≠ 0 → cols.price = some 0)) ∧
      (mysqlStore ⟨[⟨3, none, none, none, none⟩], 4, noFaults⟩ ⟨3, "", "x", 7, 0⟩).db.table =
        [⟨3, none, none, none, none⟩] ++ [⟨4, cols.name, cols.typ, cols.count, cols.price⟩] ∧
      ((mysqlUpdate ⟨[⟨3, none, none, none, none⟩], 4, noFaults⟩ ⟨3, "", "x", 7, 0⟩).db).table =
        [⟨3, none, none, none, none⟩].map (fun r =>
          if r.id == (3 : Int) then
            { r with name := cols.name, typ := cols.typ
                     count := cols.count, price := cols.price }
          else r) :=
  ⟨rfl, C6_null_iff_zero ⟨[⟨3, none, none, none, none⟩], 4, noFaults⟩ ⟨3, "", "x", 7, 0⟩ rfl⟩

/-- C7: a request whose last path segment is unavailable, or not parseable by
`strconv.Atoi`, makes each of the three identifier-taking endpoints answer 400
with no storage call and an unchanged store. -/
theorem C7_bad_identifier_400_no_storage_call (db : DbState) (r : HttpRequest)
    (hbad : r.lastParam = none ∨ ∃ s, r.lastParam = some s ∧ atoi s = none) :
    ((ControllerProduct.GetOne db r).resp.code = 400 ∧
      (ControllerProduct.GetOne db r).calls = [] ∧ (ControllerProduct.GetOne db r).db = db) ∧
    ((ControllerProduct.Update db r).resp.code = 400 ∧
      (ControllerProduct.Update db r).calls = [] ∧ (ControllerProduct.Update db r).db = db) ∧
    ((ControllerProduct.Delete db r).resp.code = 400 ∧
      (ControllerProduct.Delete db r).calls = [] ∧ (ControllerProduct.Delete db r).db = db) := by
  rcases hbad with h | ⟨s, hsome, hs⟩
  · simp [ControllerProduct.GetOne, ControllerProduct.Update, ControllerProduct.Delete, h]
  · simp [ControllerProduct.GetOne, ControllerProduct.Update, ControllerProduct.Delete,
      hsome, hs]

/-- C7 (witness): the segment "abc" is not an integer. -/
theorem C7_bad_identifier_witness :
    ((⟨some "abc", .fields none none none none⟩ : HttpRequest).lastParam = none ∨
      ∃ s, (⟨some "abc", .fields none none none none⟩ : HttpRequest).lastParam = some s ∧
        atoi s = none) ∧
    (((ControllerProduct.GetOne ⟨[], 1, noFaults⟩ ⟨some "abc", .fields none none none none⟩).resp.code = 400 ∧
      (ControllerProduct.GetOne ⟨[], 1, noFaults⟩ ⟨some "abc", .fields none none none none⟩).calls = [] ∧
      (ControllerProduct.GetOne ⟨[], 1, noFaults⟩ ⟨some "abc", .fields none none none none⟩).db = ⟨[], 1, noFaults⟩) ∧
    ((ControllerProduct.Update ⟨[], 1, noFaults⟩ ⟨some "abc", .fields none none none none⟩).resp.code = 400 ∧
      (ControllerProduct.Update ⟨[], 1, noFaults⟩ ⟨some "abc", .fields none none none none⟩).calls = [] ∧
      (ControllerProduct.Update ⟨[], 1, noFaults⟩ ⟨some "abc", .fields none none none none⟩).db = ⟨[], 1, noFaults⟩) ∧
    ((ControllerProduct.Delete ⟨[], 1, noFaults⟩ ⟨some "abc", .fields none none none none⟩).resp.code = 400 ∧
      (ControllerProduct.Delete ⟨[], 1, noFaults⟩ ⟨some "abc", .fields none none none none⟩).calls = [] ∧
      (ControllerProduct.Delete ⟨[], 1, noFaults⟩ ⟨some "abc", .fields none none none none⟩).db = ⟨[], 1, noFaults⟩)) :=
  ⟨Or.inr ⟨"abc", rfl, by decide⟩,
   C7_bad_identifier_400_no_storage_call ⟨[], 1, noFaults⟩
     ⟨some "abc", .fields none none none none⟩ (Or.inr ⟨"abc", rfl, by decide⟩)⟩

/-- C8: every response of every endpooint carries the uniform envelope — a
message string, a data payload and a boolean error flag (the shape of
`HttpResponse`, shared by all four Go envelope structs) — with the data null
and the flag set on every failure response, and the flag clear on every
success response. -/
theorem C8_envelope_invariant (db : DbState) (r : HttpRequest) :
    envelopeOk (ControllerProduct.GetOne db r) ∧
    envelopeOk (ControllerProduct.Store db r) ∧
    envelopeOk (ControllerProduct.Update db r) ∧
    envelopeOk (ControllerProduct.Delete db r) := by
  refine ⟨?_, ?_, ?_, ?_⟩ <;>
    · simp only [envelopeOk, ControllerProduct.GetOne, ControllerProduct.Store,
        ControllerProduct.Update, ControllerProduct.Delete]
      repeat' split
      all_goals simp

/-- C8 (witness): a failed request (bad path parameter) carries a set flag and
a null payload; a successful delete carries a clear flag. -/
theorem C8_envelope_invariant_witness :
    400 ≤ (ControllerProduct.GetOne ⟨[], 1, noFaults⟩ ⟨none, .malformed⟩).resp.code ∧
    ((ControllerProduct.GetOne ⟨[], 1, noFaults⟩ ⟨none, .malformed⟩).resp.error = true ∧
      (ControllerProduct.GetOne ⟨[], 1, noFaults⟩ ⟨none, .malformed⟩).resp.data = none) ∧
    (ControllerProduct.Delete ⟨[⟨7, none, none, none, none⟩], 8, noFaults⟩
        ⟨some "7", .malformed⟩).resp.code < 400 ∧
    (ControllerProduct.Delete ⟨[⟨7, none, none, none, none⟩], 8, noFaults⟩
        ⟨some "7", .malformed⟩).resp.error = false :=
  ⟨by decide,
   (C8_envelope_invariant ⟨[], 1, noFaults⟩ ⟨none, .malformed⟩).1.1 (by decide),
   by decide,
   (C8_envelope_invariant ⟨[⟨7, none, none, none, none⟩], 8, noFaults⟩
      ⟨some "7", .malformed⟩).2.2.2.2 (by decide)⟩

/-- C9 (counterexample): the claim says a valid path identifier matching no
product gives 404 regardless of the body.  On a fault-free store with no row
of id 7, updating `/7` with a malformed body answers 500 (the lookup's missing
row surfaces as the Internal error, per the `GetOne` slip), not 404. -/
theorem C9_update_missing_counterexample :
    (ControllerProduct.Update ⟨[], 1, noFaults⟩ ⟨some "7", .malformed⟩).resp =
      ⟨500, "internal error", none, true⟩ := by
  decide

/-- C9 (amended): in the Update endpoint the `FetchByID` lookup of the path
identifier happens before the request body is parsed: for every request whose
valid integer path identifier matches no product (fault-free store), the
response is the lookup's error response — 500, since the storage engine
reports missing rows as Internal — regardless of the body, with the lookup the
only storage call; and a 400 "invalid json" response from this endpoint can
only occur when the identified product was fetched successfully (and then only
for a malformed body). -/
theorem C9_lookup_before_body_parse :
    (∀ (db : DbState) (s : String) (id : Int) (b : BodyJson),
        atoi s = some id → db.faults = noFaults → findRow db.table id = none →
        (ControllerProduct.Update db ⟨some s, b⟩).resp = ⟨500, "internal error", none, true⟩ ∧
        (ControllerProduct.Update db ⟨some s, b⟩).calls = [.getOne id]) ∧
    (∀ (db : DbState) (r : HttpRequest),
        (ControllerProduct.Update db r).resp = ⟨400, "invalid json", none, true⟩ →
        ∃ s id pr, r.lastParam = some s ∧ atoi s = some id ∧
          mysqlGetOne db id = .ok pr ∧ r.body = .malformed) := by
  constructor
  · intro db s id b hs hf hm
    have hg := mysqlGetOne_missing db id hf hm
    simp [ControllerProduct.Update, hs, hg]
  · intro db r h
    rcases r with ⟨lp, b⟩
    cases lp with
    | none => simp [ControllerProduct.Update] at h
    | some s =>
      cases ha : atoi s with
      | none => simp [ControllerProduct.Update, ha] at h
      | some id =>
        cases hg : mysqlGetOne db id with
        | error e => cases e <;> simp [ControllerProduct.Update, ha, hg] at h
        | ok pr =>
          cases b with
          | malformed => exact ⟨s, id, pr, rfl, ha, hg, rfl⟩
          | fields n t c q =>
            simp only [ControllerProduct.Update, ha, hg, requestJSONUpdate] at h
            rcases he : (mysqlUpdate db
                ⟨id, n.getD pr.Name, t.getD pr.Typ, c.getD pr.Count, q.getD pr.Price⟩).err
              with _ | e
            · simp [he] at h
            · cases e <;> simp [he] at h

/-- C9 (witness). -/
theorem C9_lookup_before_body_parse_witness :
    atoi "7" = some 7 ∧
    (⟨[], 1, noFaults⟩ : DbState).faults = noFaults ∧
    findRow (⟨[], 1, noFaults⟩ : DbState).table 7 = none ∧
    ((ControllerProduct.Update ⟨[], 1, noFaults⟩ ⟨some "7", .malformed⟩).resp =
        ⟨500, "internal error", none, true⟩ ∧
      (ControllerProduct.Update ⟨[], 1, noFaults⟩ ⟨some "7", .malformed⟩).calls =
        [.getOne 7]) :=
  ⟨by decide, rfl, by decide,
   C9_lookup_before_body_parse.1 ⟨[], 1, noFaults⟩ "7" 7 .malformed (by decide) rfl (by decide)⟩

/-- C10: `Store` mutates only the identifier field of the product passed to
it — name, type, count and price come back unchanged on every run — and on
every error return (prepare failure, execution failure of either kind,
uniqueness violation, RowsAffected/LastInsertId failure, row-count anomaly:
every `some e` outcome) the passed product is entirely unchanged; the
identifier is assigned exactly on full success. -/
theorem C10_store_mutates_only_id (db : DbState) (p : Product) :
    ((mysqlStore db p).p.Name = p.Name ∧ (mysqlStore db p).p.Typ = p.Typ ∧
      (mysqlStore db p).p.Count = p.Count ∧ (mysqlStore db p).p.Price = p.Price) ∧
    (∀ e, (mysqlStore db p).err = some e → (mysqlStore db p).p = p) ∧
    ((mysqlStore db p).err = none → (mysqlStore db p).p = { p with ID := db.nextId }) := by
  have hp := mysqlStore_p_spec db p
  refine ⟨?_, ?_, ?_⟩
  · rw [hp]; split <;> simp
  · intro e he; rw [hp, he]; simp
  · intro he; rw [hp, he]; simp

/-- C10 (witness): under an injected prepare failure the product passed to
`Store` comes back untouched, and on a fault-free run only its identifier
changes. -/
theorem C10_store_mutates_only_id_witness :
    (mysqlStore ⟨[], 1, { prepareFail := true }⟩ ⟨0, "w", "h", 2, 3⟩).err = some .internal ∧
    (mysqlStore ⟨[], 1, { prepareFail := true }⟩ ⟨0, "w", "h", 2, 3⟩).p = ⟨0, "w", "h", 2, 3⟩ ∧
    (mysqlStore ⟨[], 1, noFaults⟩ ⟨0, "w", "h", 2, 3⟩).err = none ∧
    (mysqlStore ⟨[], 1, noFaults⟩ ⟨0, "w", "h", 2, 3⟩).p = ⟨1, "w", "h", 2, 3⟩ :=
  ⟨by decide,
   (C10_store_mutates_only_id ⟨[], 1, { prepareFail := true }⟩ ⟨0, "w", "h", 2, 3⟩).2.1
     .internal (by decide),
   by decide,
   (C10_store_mutates_only_id ⟨[], 1, noFaults⟩ ⟨0, "w", "h", 2, 3⟩).2.2 (by decide)⟩

